import Mathlib

/-!
Verification of the variant-resolution and cart-submission core of
`assets/product-popup.js`.

The script keeps its state in module-level globals (`currentProduct`,
`selectedColor`, `selectedSize`) and performs four kinds of network calls:
the primary `addToCart` (POST /cart/add.js, line 340), the bundle product
fetch (GET /products/dark-winter-jacket.js, line 417), the bundle
`addToCart` (line 428) and the cart-count fetch (GET /cart.js, line 442).
We embed the decision logic as pure Lean functions; network outcomes are an
explicit environment, and the network calls a submission performs are
recorded as an event trace.
-/

set_option autoImplicit false

namespace ProductPopup

/-- JavaScript `toLowerCase` on a string, character by character
(the strings in play are ASCII, where this agrees with JS). -/
def strLower (s : String) : String := ⟨s.data.map Char.toLower⟩

/-- JavaScript `toUpperCase` on a string, character by character. -/
def strUpper (s : String) : String := ⟨s.data.map Char.toUpper⟩

/-- A Shopify variant as consumed by the script: `option1` is the color,
`option2` the size. An option may be absent (`null`/`undefined` in JS),
modelled as `none`. -/
structure Variant where
  id : Nat
  option1 : Option String
  option2 : Option String
  deriving DecidableEq

/-- The slice of a Shopify product record the core logic reads:
its handle, title, price in cents, and ordered variant list. -/
structure Product where
  handle : String
  title : String
  price : Int
  variants : List Variant
  deriving DecidableEq

/-- JavaScript truthiness of a nullable string global: `null` and the
empty string are falsy. -/
def jsTruthy : Option String → Bool
  | none => false
  | some s => s != ""

/-- `variant.option1 ? variant.option1.toLowerCase() : ''` (line 376). -/
def jsVariantColor (v : Variant) : String :=
  if jsTruthy v.option1 then strLower (v.option1.getD "") else ""

/-- `variant.option2 ? variant.option2.toUpperCase() : ''` (line 377). -/
def jsVariantSize (v : Variant) : String :=
  if jsTruthy v.option2 then strUpper (v.option2.getD "") else ""

/-- The predicate of the `find` callback in `findMatchingVariant`
(line 379): lowercased variant color against lowercased selected color,
uppercased variant size against the selected size as-is. -/
def variantMatches (v : Variant) (color size : String) : Bool :=
  jsVariantColor v == strLower color && jsVariantSize v == size

/-- `findMatchingVariant(product, color, size)` (lines 373-381):
first variant of the product satisfying `variantMatches`. -/
def findMatchingVariant (product : Product) (color size : String) : Option Variant :=
  product.variants.find? (fun v => variantMatches v color size)

/-- The lookup as the specification words it: the first variant whose color
equals `c` case-insensitively and whose size equals `s` exactly
(case-sensitively). Kept separate from `findMatchingVariant` so the two can
be compared. -/
def specLookup (variants : List Variant) (c s : String) : Option Variant :=
  variants.find? (fun v =>
    strLower (v.option1.getD "") == strLower c && v.option2.getD "" == s)

/-- First-match characterization of `List.find?`: it returns `some a`
exactly when `a` satisfies the predicate and occurs after a prefix of
non-satisfying elements. -/
theorem find?_eq_some_first {α : Type} (q : α → Bool) :
    ∀ (l : List α) (a : α), l.find? q = some a ↔
      (q a = true ∧ ∃ l₁ l₂, l = l₁ ++ a :: l₂ ∧ ∀ x ∈ l₁, q x = false) := by
  intro l
  induction l with
  | nil =>
    intro a
    constructor
    · intro h
      simp [List.find?] at h
    · rintro ⟨-, l₁, l₂, h, -⟩
      exact absurd h (by simp)
  | cons b t ih =>
    intro a
    cases hq : q b with
    | true =>
      rw [List.find?_cons_of_pos _ hq]
      constructor
      · intro h
        refine ⟨?_, [], t, ?_, ?_⟩
        · cases h; exact hq
        · cases h; rfl
        · intro x hx; simp at hx
      · rintro ⟨ha, l₁, l₂, hdec, hpre⟩
        cases l₁ with
        | nil => simp at hdec; rw [hdec.1]
        | cons c l₁ =>
          have hc : c ∈ c :: l₁ := List.mem_cons_self c l₁
          have : q b = false := by
            have hb : b = c := by simpa using congrArg (List.head? ·) hdec
            rw [hb]; exact hpre c hc
          rw [hq] at this; cases this
    | false =>
      rw [List.find?_cons_of_neg _ (by simp [hq])]
      rw [ih a]
      constructor
      · rintro ⟨ha, l₁, l₂, hdec, hpre⟩
        refine ⟨ha, b :: l₁, l₂, by rw [hdec]; rfl, ?_⟩
        intro x hx
        cases hx with
        | head => exact hq
        | tail _ hx2 => exact hpre x hx2
      · rintro ⟨ha, l₁, l₂, hdec, hpre⟩
        cases l₁ with
        | nil =>
          simp at hdec
          rw [hdec.1] at hq; rw [ha] at hq; cases hq
        | cons c l₁ =>
          have hb : b = c ∧ t = l₁ ++ a :: l₂ := by
            constructor
            · simpa using congrArg (List.head? ·) hdec
            · simpa using congrArg (List.tail ·) hdec
          exact ⟨ha, l₁, l₂, hb.2, fun x hx => hpre x (List.mem_cons_of_mem c hx)⟩

/-- A nonempty string stays nonempty under `strLower`. -/
theorem strLower_ne_empty {c : String} (hc : c ≠ "") : strLower c ≠ "" := by
  intro h
  apply hc
  have hd := congrArg String.data h
  simp [strLower] at hd
  obtain ⟨d⟩ := c
  simp at hd
  subst hd
  rfl

/-- A one-variant product whose single variant carries the lowercase size
label "m". -/
def productSizeLowercase : Product :=
  ⟨"tee", "Tee", 1999, [⟨1, some "black", some "m"⟩]⟩

/-- C1 counterexample: on a variant whose size label is the lowercase "m",
the code's lookup for selection ("black", "M") returns that variant even
though no variant's size equals "M" exactly — the spec-worded lookup
(size compared exactly, case-sensitively) returns not-found. -/
theorem c1_size_exact_counterexample :
    findMatchingVariant productSizeLowercase "black" "M"
      = some ⟨1, some "black", some "m"⟩
    ∧ specLookup productSizeLowercase.variants "black" "M" = none := by
  decide

/-- C1 (amended): `findMatchingVariant` returns the first variant in the
product's listed order whose lowercased color equals the lowercased
selected color and whose UPPERCASED size label equals the selected size
exactly (`variantMatches`), and returns not-found exactly when no variant
satisfies that predicate. -/
theorem c1_lookup_first_match (p : Product) (c s : String) :
    (∀ v, findMatchingVariant p c s = some v ↔
      (variantMatches v c s = true ∧
        ∃ l₁ l₂, p.variants = l₁ ++ v :: l₂ ∧
          ∀ u ∈ l₁, variantMatches u c s = false))
    ∧ (findMatchingVariant p c s = none ↔
        ∀ v ∈ p.variants, variantMatches v c s = false) := by
  constructor
  · intro v
    exact find?_eq_some_first _ p.variants v
  · unfold findMatchingVariant
    rw [List.find?_eq_none]
    constructor
    · intro h v hv
      simpa using h v hv
    · intro h v hv
      simp [h v hv]

/-- C10: a variant with a missing color or size option value (its option is
`null`/`undefined`) is treated as having the empty string for that option
and therefore never matches a selection whose color and size are both
nonempty; the lookup never returns such a variant. -/
theorem c10_missing_option_never_matches (p : Product) (c s : String)
    (hc : c ≠ "") (hs : s ≠ "")
    (v : Variant) (hv : v.option1 = none ∨ v.option2 = none) :
    findMatchingVariant p c s ≠ some v := by
  intro h
  have hm := List.find?_some h
  simp only [variantMatches, Bool.and_eq_true, beq_iff_eq] at hm
  cases hv with
  | inl h1 =>
    have : jsVariantColor v = "" := by simp [jsVariantColor, h1, jsTruthy]
    rw [this] at hm
    exact strLower_ne_empty hc hm.1.symm
  | inr h2 =>
    have : jsVariantSize v = "" := by simp [jsVariantSize, h2, jsTruthy]
    rw [this] at hm
    exact hs hm.2.symm

/-- A one-variant product whose single variant lacks a size option. -/
def productMissingSize : Product :=
  ⟨"tee", "Tee", 1999, [⟨7, some "black", none⟩]⟩

/-- C10 witness at a concrete product, selection ("black", "M"). -/
theorem c10_missing_option_never_matches_witness :
    ("black" ≠ "" ∧ "M" ≠ ""
      ∧ ((⟨7, some "black", none⟩ : Variant).option1 = none
          ∨ (⟨7, some "black", none⟩ : Variant).option2 = none))
    ∧ findMatchingVariant productMissingSize "black" "M"
        ≠ some ⟨7, some "black", none⟩ :=
  ⟨⟨by decide, by decide, Or.inr rfl⟩,
    c10_missing_option_never_matches productMissingSize "black" "M"
      (by decide) (by decide) ⟨7, some "black", none⟩ (Or.inr rfl)⟩

/-- The network calls a submission can perform, one constructor per call
site: the primary `addToCart` (line 340), the bundle product fetch
(line 417), the bundle `addToCart` (line 428), and the cart-count fetch
issued by `updateCartCount` (line 442). -/
inductive CartEvent where
  | primaryAdd (variantId : Nat) (qty : Nat)
  | bundleFetch (handle : String)
  | bundleAdd (variantId : Nat) (qty : Nat)
  | cartFetch
  deriving DecidableEq

/-- Notification severity passed to `showNotification`. -/
inductive NoteLevel where
  | success
  | error
  deriving DecidableEq

/-- A `showNotification(message, type)` call. -/
structure Notification where
  message : String
  level : NoteLevel
  deriving DecidableEq

/-- Outcomes of the network, fixed before a submission runs:
whether the primary POST /cart/add.js succeeds, what the fetch of
/products/dark-winter-jacket.js yields (`none` for any failure), and
whether the bundle POST /cart/add.js succeeds. -/
structure Env where
  primaryAddOk : Bool
  bundleProduct : Option Product
  bundleAddOk : Bool
  deriving DecidableEq

/-- What one submission did: the network calls it made, in order, and the
notifications it showed. -/
structure RunResult where
  calls : List CartEvent
  notes : List Notification
  deriving DecidableEq

/-- Handle of the auto-added bundle product (line 417). -/
def bundleHandle : String := "dark-winter-jacket"

/-- The promise chain inside `autoAddSoftWinterJacket` before its final
`.catch` (lines 417-429): fetch the bundle product; if the fetch fails the
chain rejects; otherwise read `jacket.variants[0].id` — a TypeError
(rejection) when the variant list is empty — and POST the bundle add,
which may itself fail. -/
def autoAddAttempt (env : Env) : List CartEvent × Except String Unit :=
  match env.bundleProduct with
  | none =>
    ([CartEvent.bundleFetch bundleHandle],
      Except.error "Soft Winter Jacket product not found")
  | some jacket =>
    match jacket.variants with
    | [] =>
      ([CartEvent.bundleFetch bundleHandle],
        Except.error "TypeError: cannot read id of undefined")
    | v :: _ =>
      if env.bundleAddOk then
        ([CartEvent.bundleFetch bundleHandle, CartEvent.bundleAdd v.id 1],
          Except.ok ())
      else
        ([CartEvent.bundleFetch bundleHandle, CartEvent.bundleAdd v.id 1],
          Except.error "Failed to add to cart")

/-- `autoAddSoftWinterJacket()` (lines 414-435): the attempt above followed
by `.catch` (lines 430-434), which logs the error and resolves, so the
returned promise always fulfills. -/
def autoAddSoftWinterJacket (env : Env) : List CartEvent × Except String Unit :=
  ((autoAddAttempt env).1, Except.ok ())

def msgIncomplete : String := "Please select both color and size"
def msgNoCombo : String := "This combination is not available"
def msgSuccess : String := "Added to cart"
def msgProblem (e : String) : String := "A problem happened. Error: " ++ e

/-- One run of `handleAddToCart` (lines 319-367). `selColor`/`selSize` are
the values of the `selectedColor`/`selectedSize` globals when the click
handler starts; `resumeColor`/`resumeSize` are their values when the first
`.then` callback runs, i.e. after the primary-add suspension point (closing
the popup during the primary add resets the globals to `null`, modelled
`none`). The synchronous prefix — validation (lines 321-324), variant
lookup (lines 327-332) — uses the values at start; the bundle check
(line 343) reads the globals again after the suspension, and
`selectedColor.toLowerCase()` throws a TypeError when `selectedColor` is
`null`, a rejection the outer `.catch` (lines 358-361) reports as an
error notification. -/
def runSubmit (product : Product) (selColor selSize : Option String)
    (env : Env) (resumeColor resumeSize : Option String) : RunResult :=
  if !(jsTruthy selColor) || !(jsTruthy selSize) then
    ⟨[], [⟨msgIncomplete, NoteLevel.error⟩]⟩
  else
    match findMatchingVariant product (selColor.getD "") (selSize.getD "") with
    | none => ⟨[], [⟨msgNoCombo, NoteLevel.error⟩]⟩
    | some variant =>
      if env.primaryAddOk then
        match resumeColor with
        | none =>
          ⟨[CartEvent.primaryAdd variant.id 1],
            [⟨msgProblem "Cannot read properties of null", NoteLevel.error⟩]⟩
        | some rc =>
          if strLower rc == "black" && resumeSize == some "M" then
            ⟨CartEvent.primaryAdd variant.id 1
                :: (autoAddSoftWinterJacket env).1 ++ [CartEvent.cartFetch],
              [⟨msgSuccess, NoteLevel.success⟩]⟩
          else
            ⟨[CartEvent.primaryAdd variant.id 1, CartEvent.cartFetch],
              [⟨msgSuccess, NoteLevel.success⟩]⟩
      else
        ⟨[CartEvent.primaryAdd variant.id 1],
          [⟨msgProblem "Failed to add to cart", NoteLevel.error⟩]⟩

/-- A submission during which the globals are not mutated between the
click and the bundle check: the values read after the suspension point are
the ones the submission started with. -/
def handleAddToCart (product : Product) (selColor selSize : Option String)
    (env : Env) : RunResult :=
  runSubmit product selColor selSize env selColor selSize

/-- The module-level globals: `currentProduct`, `selectedColor`,
`selectedSize` (lines 41-43). -/
structure PopupState where
  currentProduct : Option Product
  selectedColor : Option String
  selectedSize : Option String
  deriving DecidableEq

/-- `closePopup()` (lines 508-516): resets all three globals to `null`. -/
def closePopup (_st : PopupState) : PopupState := ⟨none, none, none⟩

/-- A click on the add-to-cart button invokes `handleAddToCart` only when
the button is not disabled (a disabled button fires no click events).
`handleAddToCart` sets `disabled = true` (line 336) synchronously before
its first suspension point and resets it in `.finally` (lines 362-366), so
a click arriving while a prior submission is between `Submitting` and
resolution observes `buttonDisabled = true`. -/
def clickAddToCart (buttonDisabled : Bool) (product : Product)
    (selColor selSize : Option String) (env : Env) : RunResult :=
  if buttonDisabled then ⟨[], []⟩
  else handleAddToCart product selColor selSize env

/-- Number of primary `addToCart` calls (call site at line 340) in a
trace. -/
def countPrimaryAdds (calls : List CartEvent) : Nat :=
  calls.countP (fun e =>
    match e with
    | CartEvent.primaryAdd _ _ => true
    | _ => false)

/-- The bundle step always begins with the bundle product fetch. -/
theorem autoAdd_fetches_bundle (env : Env) :
    CartEvent.bundleFetch bundleHandle ∈ (autoAddSoftWinterJacket env).1 := by
  unfold autoAddSoftWinterJacket autoAddAttempt
  cases hp : env.bundleProduct with
  | none => simp
  | some j =>
    cases hv : j.variants with
    | nil => simp [hv]
    | cons w t =>
      cases hb : env.bundleAddOk <;> simp [hv, hb]

/-- The bundle step never performs a primary add. -/
theorem autoAdd_no_primary (env : Env) :
    countPrimaryAdds (autoAddSoftWinterJacket env).1 = 0 := by
  unfold autoAddSoftWinterJacket autoAddAttempt countPrimaryAdds
  cases hp : env.bundleProduct with
  | none => simp
  | some j =>
    cases hv : j.variants with
    | nil => simp [hv]
    | cons w t =>
      cases hb : env.bundleAddOk <;> simp [hv, hb, List.countP_cons]

/-- Evaluation of a submission whose selection is complete, resolves to
`v`, whose primary add succeeds, and whose selection triggers the bundle
rule. -/
theorem handleAddToCart_trigger (p : Product) (selC selS : Option String)
    (env : Env) (v : Variant)
    (h1 : jsTruthy selC = true) (h2 : jsTruthy selS = true)
    (h3 : findMatchingVariant p (selC.getD "") (selS.getD "") = some v)
    (h4 : env.primaryAddOk = true)
    (h5 : strLower (selC.getD "") = "black") (h6 : selS = some "M") :
    handleAddToCart p selC selS env =
      ⟨CartEvent.primaryAdd v.id 1 :: (autoAddSoftWinterJacket env).1
          ++ [CartEvent.cartFetch],
        [⟨msgSuccess, NoteLevel.success⟩]⟩ := by
  cases selC with
  | none => simp [jsTruthy] at h1
  | some c =>
    subst h6
    simp only [Option.getD_some] at h3 h5
    simp [handleAddToCart, runSubmit, h1, h2, h3, h4, h5]

/-- Evaluation of a submission whose selection is complete, resolves to
`v`, whose primary add succeeds, and whose selection does not trigger the
bundle rule. -/
theorem handleAddToCart_no_trigger (p : Product) (selC selS : Option String)
    (env : Env) (v : Variant)
    (h1 : jsTruthy selC = true) (h2 : jsTruthy selS = true)
    (h3 : findMatchingVariant p (selC.getD "") (selS.getD "") = some v)
    (h4 : env.primaryAddOk = true)
    (h5 : ¬ (strLower (selC.getD "") = "black" ∧ selS = some "M")) :
    handleAddToCart p selC selS env =
      ⟨[CartEvent.primaryAdd v.id 1, CartEvent.cartFetch],
        [⟨msgSuccess, NoteLevel.success⟩]⟩ := by
  cases selC with
  | none => simp [jsTruthy] at h1
  | some c =>
    cases selS with
    | none => simp [jsTruthy] at h2
    | some s =>
      simp only [Option.getD_some] at h3 h5
      rcases Decidable.not_and_iff_or_not.mp h5 with h | h
      · simp [handleAddToCart, runSubmit, h1, h2, h3, h4, h]
      · have hs : s ≠ "M" := by
          intro hs
          exact h (by rw [hs])
        simp [handleAddToCart, runSubmit, h1, h2, h3, h4, hs]

/-- Evaluation of a submission whose selection is complete and resolves to
`v` but whose primary add fails. -/
theorem handleAddToCart_primary_fails (p : Product) (selC selS : Option String)
    (env : Env) (v : Variant)
    (h1 : jsTruthy selC = true) (h2 : jsTruthy selS = true)
    (h3 : findMatchingVariant p (selC.getD "") (selS.getD "") = some v)
    (h4 : env.primaryAddOk = false) :
    handleAddToCart p selC selS env =
      ⟨[CartEvent.primaryAdd v.id 1],
        [⟨msgProblem "Failed to add to cart", NoteLevel.error⟩]⟩ := by
  cases selC with
  | none => simp [jsTruthy] at h1
  | some c =>
    simp only [Option.getD_some] at h3
    simp [handleAddToCart, runSubmit, h1, h2, h3, h4]

/-- A product with variants (Black,S), (Black,M), (White,M). -/
def productDemo : Product :=
  ⟨"tee", "Tee", 1999,
    [⟨11, some "Black", some "S"⟩, ⟨12, some "Black", some "M"⟩,
      ⟨13, some "White", some "M"⟩]⟩

/-- A bundle product with one variant. -/
def jacketProduct : Product :=
  ⟨"dark-winter-jacket", "Dark Winter Jacket", 4999, [⟨99, some "Blue", some "L"⟩]⟩

/-- The bundle product with an empty variant list. -/
def jacketEmpty : Product :=
  ⟨"dark-winter-jacket", "Dark Winter Jacket", 4999, []⟩

def envAllOk : Env := ⟨true, some jacketProduct, true⟩
def envBundleMissing : Env := ⟨true, none, true⟩
def envJacketEmpty : Env := ⟨true, some jacketEmpty, true⟩
def envPrimaryFails : Env := ⟨false, some jacketProduct, true⟩

/-- C2: when the selection is complete, resolves to a variant, the primary
add succeeds and the bundle rule triggers, then whatever way the bundle
step fails (product fetch fails, variant list empty, or bundle add fails),
the submission still reports success, the primary add stays in the trace
(nothing is rolled back), and no error-level notification is shown. -/
theorem c2_bundle_failure_swallowed (p : Product) (selC selS : Option String)
    (env : Env) (v : Variant)
    (h1 : jsTruthy selC = true) (h2 : jsTruthy selS = true)
    (h3 : findMatchingVariant p (selC.getD "") (selS.getD "") = some v)
    (h4 : env.primaryAddOk = true)
    (h5 : strLower (selC.getD "") = "black") (h6 : selS = some "M")
    (_h7 : env.bundleProduct = none
        ∨ (∃ j, env.bundleProduct = some j ∧ j.variants = [])
        ∨ env.bundleAddOk = false) :
    (handleAddToCart p selC selS env).notes = [⟨msgSuccess, NoteLevel.success⟩]
    ∧ CartEvent.primaryAdd v.id 1 ∈ (handleAddToCart p selC selS env).calls
    ∧ ∀ n ∈ (handleAddToCart p selC selS env).notes,
        n.level ≠ NoteLevel.error := by
  rw [handleAddToCart_trigger p selC selS env v h1 h2 h3 h4 h5 h6]
  refine ⟨rfl, List.mem_cons_self _ _, ?_⟩
  intro n hn
  rw [List.mem_singleton] at hn
  subst hn
  decide

/-- C2 witness: product (Black,S)/(Black,M)/(White,M), selection
("BLACK","M"), primary add succeeds, bundle product fetch fails. -/
theorem c2_bundle_failure_swallowed_witness :
    (jsTruthy (some "BLACK") = true ∧ jsTruthy (some "M") = true
      ∧ findMatchingVariant productDemo "BLACK" "M"
          = some ⟨12, some "Black", some "M"⟩
      ∧ envBundleMissing.primaryAddOk = true
      ∧ strLower "BLACK" = "black"
      ∧ envBundleMissing.bundleProduct = none)
    ∧ ((handleAddToCart productDemo (some "BLACK") (some "M")
          envBundleMissing).notes = [⟨msgSuccess, NoteLevel.success⟩]
      ∧ CartEvent.primaryAdd 12 1 ∈ (handleAddToCart productDemo (some "BLACK")
          (some "M") envBundleMissing).calls
      ∧ ∀ n ∈ (handleAddToCart productDemo (some "BLACK") (some "M")
          envBundleMissing).notes, n.level ≠ NoteLevel.error) :=
  ⟨⟨by decide, by decide, by decide, rfl, by decide, rfl⟩,
    c2_bundle_failure_swallowed productDemo (some "BLACK") (some "M")
      envBundleMissing ⟨12, some "Black", some "M"⟩
      (by decide) (by decide) (by decide) rfl (by decide) rfl (Or.inl rfl)⟩

/-- C3: when the selection is complete and resolves to a variant but the
primary add fails, the submission reports failure (an error notification)
and the trace is just the one failed primary add — the bundle product is
never fetched and no bundle add is ever attempted. -/
theorem c3_primary_failure_stops_bundle (p : Product) (selC selS : Option String)
    (env : Env) (v : Variant)
    (h1 : jsTruthy selC = true) (h2 : jsTruthy selS = true)
    (h3 : findMatchingVariant p (selC.getD "") (selS.getD "") = some v)
    (h4 : env.primaryAddOk = false) :
    (handleAddToCart p selC selS env).calls = [CartEvent.primaryAdd v.id 1]
    ∧ (handleAddToCart p selC selS env).notes
        = [⟨msgProblem "Failed to add to cart", NoteLevel.error⟩]
    ∧ (∀ h, CartEvent.bundleFetch h ∉ (handleAddToCart p selC selS env).calls)
    ∧ (∀ i q, CartEvent.bundleAdd i q ∉ (handleAddToCart p selC selS env).calls) := by
  rw [handleAddToCart_primary_fails p selC selS env v h1 h2 h3 h4]
  refine ⟨rfl, rfl, ?_, ?_⟩ <;> simp

/-- C3 witness: selection ("Black","M"), primary add fails. -/
theorem c3_primary_failure_stops_bundle_witness :
    (jsTruthy (some "Black") = true ∧ jsTruthy (some "M") = true
      ∧ findMatchingVariant productDemo "Black" "M"
          = some ⟨12, some "Black", some "M"⟩
      ∧ envPrimaryFails.primaryAddOk = false)
    ∧ ((handleAddToCart productDemo (some "Black") (some "M")
          envPrimaryFails).calls = [CartEvent.primaryAdd 12 1]
      ∧ (handleAddToCart productDemo (some "Black") (some "M")
          envPrimaryFails).notes
          = [⟨msgProblem "Failed to add to cart", NoteLevel.error⟩]
      ∧ (∀ h, CartEvent.bundleFetch h ∉ (handleAddToCart productDemo
          (some "Black") (some "M") envPrimaryFails).calls)
      ∧ (∀ i q, CartEvent.bundleAdd i q ∉ (handleAddToCart productDemo
          (some "Black") (some "M") envPrimaryFails).calls)) :=
  ⟨⟨by decide, by decide, by decide, rfl⟩,
    c3_primary_failure_stops_bundle productDemo (some "Black") (some "M")
      envPrimaryFails ⟨12, some "Black", some "M"⟩
      (by decide) (by decide) (by decide) rfl⟩

/-- C5: a submission whose selection is incomplete (color or size falsy)
makes no network calls at all and shows the incomplete-selection error. -/
theorem c5_incomplete_selection_no_calls (p : Product)
    (selC selS : Option String) (env : Env)
    (h : jsTruthy selC = false ∨ jsTruthy selS = false) :
    (handleAddToCart p selC selS env).calls = []
    ∧ (handleAddToCart p selC selS env).notes
        = [⟨msgIncomplete, NoteLevel.error⟩] := by
  unfold handleAddToCart runSubmit
  rcases h with h | h <;> simp [h]

/-- C5 witness: no color selected. -/
theorem c5_incomplete_selection_no_calls_witness :
    (jsTruthy none = false ∨ jsTruthy (some "M") = false)
    ∧ ((handleAddToCart productDemo none (some "M") envAllOk).calls = []
      ∧ (handleAddToCart productDemo none (some "M") envAllOk).notes
          = [⟨msgIncomplete, NoteLevel.error⟩]) :=
  ⟨Or.inl rfl,
    c5_incomplete_selection_no_calls productDemo none (some "M") envAllOk
      (Or.inl rfl)⟩

/-- C6: a submission whose selection is complete but matches no variant of
the current product makes no network calls at all and shows the
not-available error. -/
theorem c6_no_matching_variant_no_calls (p : Product)
    (selC selS : Option String) (env : Env)
    (h1 : jsTruthy selC = true) (h2 : jsTruthy selS = true)
    (h3 : findMatchingVariant p (selC.getD "") (selS.getD "") = none) :
    (handleAddToCart p selC selS env).calls = []
    ∧ (handleAddToCart p selC selS env).notes
        = [⟨msgNoCombo, NoteLevel.error⟩] := by
  cases selC with
  | none => simp [jsTruthy] at h1
  | some c =>
    simp only [Option.getD_some] at h3
    simp [handleAddToCart, runSubmit, h1, h2, h3]

/-- C6 witness: selection ("Red","M") on a product with no red variant. -/
theorem c6_no_matching_variant_no_calls_witness :
    (jsTruthy (some "Red") = true ∧ jsTruthy (some "M") = true
      ∧ findMatchingVariant productDemo "Red" "M" = none)
    ∧ ((handleAddToCart productDemo (some "Red") (some "M") envAllOk).calls = []
      ∧ (handleAddToCart productDemo (some "Red") (some "M") envAllOk).notes
          = [⟨msgNoCombo, NoteLevel.error⟩]) :=
  ⟨⟨by decide, by decide, by decide⟩,
    c6_no_matching_variant_no_calls productDemo (some "Red") (some "M") envAllOk
      (by decide) (by decide) (by decide)⟩

/-- C7: for a submission whose selection is complete, resolves to some
variant, and whose primary add succeeds, the bundle product fetch is
attempted exactly when the selected color lowercases to "black" and the
selected size is exactly "M" — the test reads the user's selection, not
the resolved variant's option fields, which are unconstrained here. -/
theorem c7_bundle_trigger_iff (p : Product) (selC selS : Option String)
    (env : Env) (v : Variant)
    (h1 : jsTruthy selC = true) (h2 : jsTruthy selS = true)
    (h3 : findMatchingVariant p (selC.getD "") (selS.getD "") = some v)
    (h4 : env.primaryAddOk = true) :
    CartEvent.bundleFetch bundleHandle ∈ (handleAddToCart p selC selS env).calls
      ↔ (strLower (selC.getD "") = "black" ∧ selS = some "M") := by
  by_cases ht : strLower (selC.getD "") = "black" ∧ selS = some "M"
  · rw [handleAddToCart_trigger p selC selS env v h1 h2 h3 h4 ht.1 ht.2]
    constructor
    · intro _
      exact ht
    · intro _
      exact List.mem_cons_of_mem _
        (List.mem_append_left _ (autoAdd_fetches_bundle env))
  · rw [handleAddToCart_no_trigger p selC selS env v h1 h2 h3 h4 ht]
    constructor
    · intro hmem
      simp at hmem
    · intro hrhs
      exact absurd hrhs ht

/-- C7 witness: selection ("bLaCk","M") resolves to the (Black,M) variant
and triggers; the right-hand side holds by computation. -/
theorem c7_bundle_trigger_iff_witness :
    (jsTruthy (some "bLaCk") = true ∧ jsTruthy (some "M") = true
      ∧ findMatchingVariant productDemo "bLaCk" "M"
          = some ⟨12, some "Black", some "M"⟩
      ∧ envAllOk.primaryAddOk = true)
    ∧ (CartEvent.bundleFetch bundleHandle
        ∈ (handleAddToCart productDemo (some "bLaCk") (some "M") envAllOk).calls
      ↔ (strLower "bLaCk" = "black" ∧ (some "M" : Option String) = some "M")) :=
  ⟨⟨by decide, by decide, by decide, rfl⟩,
    c7_bundle_trigger_iff productDemo (some "bLaCk") (some "M") envAllOk
      ⟨12, some "Black", some "M"⟩ (by decide) (by decide) (by decide) rfl⟩

/-- C4: a second click arriving while a prior submission is between its
first suspension point and resolution sees the disabled button, performs
no calls, and the combined trace of both clicks contains exactly one
primary add. -/
theorem c4_reentrant_click_single_primary_add (p : Product)
    (selC selS : Option String) (env env2 : Env) (v : Variant)
    (h1 : jsTruthy selC = true) (h2 : jsTruthy selS = true)
    (h3 : findMatchingVariant p (selC.getD "") (selS.getD "") = some v) :
    (clickAddToCart true p selC selS env2).calls = []
    ∧ countPrimaryAdds ((clickAddToCart false p selC selS env).calls
        ++ (clickAddToCart true p selC selS env2).calls) = 1 := by
  refine ⟨rfl, ?_⟩
  have hsecond : (clickAddToCart true p selC selS env2).calls = [] := rfl
  rw [hsecond, List.append_nil]
  show countPrimaryAdds (handleAddToCart p selC selS env).calls = 1
  cases h4 : env.primaryAddOk with
  | false =>
    rw [handleAddToCart_primary_fails p selC selS env v h1 h2 h3 h4]
    rfl
  | true =>
    by_cases ht : strLower (selC.getD "") = "black" ∧ selS = some "M"
    · rw [handleAddToCart_trigger p selC selS env v h1 h2 h3 h4 ht.1 ht.2]
      have hz := autoAdd_no_primary env
      unfold countPrimaryAdds at hz ⊢
      simp [List.countP_cons, List.countP_append, hz]
    · rw [handleAddToCart_no_trigger p selC selS env v h1 h2 h3 h4 ht]
      rfl

/-- C4 witness: selection ("Black","M"); the second click is ignored and
one primary add remains. -/
theorem c4_reentrant_click_single_primary_add_witness :
    (jsTruthy (some "Black") = true ∧ jsTruthy (some "M") = true
      ∧ findMatchingVariant productDemo "Black" "M"
          = some ⟨12, some "Black", some "M"⟩)
    ∧ ((clickAddToCart true productDemo (some "Black") (some "M")
          envAllOk).calls = []
      ∧ countPrimaryAdds ((clickAddToCart false productDemo (some "Black")
          (some "M") envAllOk).calls
          ++ (clickAddToCart true productDemo (some "Black") (some "M")
              envAllOk).calls) = 1) :=
  ⟨⟨by decide, by decide, by decide⟩,
    c4_reentrant_click_single_primary_add productDemo (some "Black") (some "M")
      envAllOk envAllOk ⟨12, some "Black", some "M"⟩
      (by decide) (by decide) (by decide)⟩

/-- C9: when the bundle product loads with an empty variant list, reading
`jacket.variants[0].id` faults, but that rejection is consumed by the
`.catch` inside `autoAddSoftWinterJacket` itself, so the bundle step
resolves and a triggering submission still reports success. -/
theorem c9_empty_bundle_variants_caught (p : Product)
    (selC selS : Option String) (env : Env) (v : Variant) (j : Product)
    (hj : env.bundleProduct = some j) (hv : j.variants = [])
    (h1 : jsTruthy selC = true) (h2 : jsTruthy selS = true)
    (h3 : findMatchingVariant p (selC.getD "") (selS.getD "") = some v)
    (h4 : env.primaryAddOk = true)
    (h5 : strLower (selC.getD "") = "black") (h6 : selS = some "M") :
    (∃ e, (autoAddAttempt env).2 = Except.error e)
    ∧ (autoAddSoftWinterJacket env).2 = Except.ok ()
    ∧ (handleAddToCart p selC selS env).notes
        = [⟨msgSuccess, NoteLevel.success⟩] := by
  refine ⟨?_, rfl, ?_⟩
  · unfold autoAddAttempt
    simp [hj, hv]
  · rw [handleAddToCart_trigger p selC selS env v h1 h2 h3 h4 h5 h6]

/-- C9 witness: bundle product present with no variants, selection
("Black","M"). -/
theorem c9_empty_bundle_variants_caught_witness :
    (envJacketEmpty.bundleProduct = some jacketEmpty
      ∧ jacketEmpty.variants = []
      ∧ jsTruthy (some "Black") = true ∧ jsTruthy (some "M") = true
      ∧ findMatchingVariant productDemo "Black" "M"
          = some ⟨12, some "Black", some "M"⟩
      ∧ envJacketEmpty.primaryAddOk = true
      ∧ strLower "Black" = "black")
    ∧ ((∃ e, (autoAddAttempt envJacketEmpty).2 = Except.error e)
      ∧ (autoAddSoftWinterJacket envJacketEmpty).2 = Except.ok ()
      ∧ (handleAddToCart productDemo (some "Black") (some "M")
          envJacketEmpty).notes = [⟨msgSuccess, NoteLevel.success⟩]) :=
  ⟨⟨rfl, rfl, by decide, by decide, by decide, rfl, by decide⟩,
    c9_empty_bundle_variants_caught productDemo (some "Black") (some "M")
      envJacketEmpty ⟨12, some "Black", some "M"⟩ jacketEmpty rfl rfl
      (by decide) (by decide) (by decide) rfl (by decide) rfl⟩

/-- C8: closing the popup while the primary add is in flight resets the
selection globals; the bundle check then reads `selectedColor` after the
suspension point, `null.toLowerCase()` throws, and the rejection reaches
the outer catch — the very same submission that reports success when no
close intervenes reports an error after a mid-flight close, so the step
does fault and the reported outcome is changed by the close. -/
theorem c8_close_midflight_changes_outcome :
    (handleAddToCart productDemo (some "Black") (some "M") envAllOk).notes
        = [⟨msgSuccess, NoteLevel.success⟩]
    ∧ (runSubmit productDemo (some "Black") (some "M") envAllOk
          (closePopup ⟨some productDemo, some "Black", some "M"⟩).selectedColor
          (closePopup ⟨some productDemo, some "Black", some "M"⟩).selectedSize).notes
        = [⟨msgProblem "Cannot read properties of null", NoteLevel.error⟩] := by
  decide

end ProductPopup
